import Mathlib

/-!
Verification of the RHPMAN per-node protocol engine (rhpman-sim).

Shallow embedding of the engine from `src/model/rhpman.cc`,
`src/model/rhpman.h`, the storage container (`storage.cc` / `storage.h`)
and the data item type (`src/model/dataItem.cc`).  C++ `double` values
(profiles, fitness, thresholds) are modelled as rationals; simulator
time as a natural number; `std::set` as `Finset`; `std::map` as an
association list with insert-or-update semantics.  Outbound packets and
the lookup success/failure callback invocations are collected into an
explicit output list.
-/

namespace Rhpman

/-- A data item (`DataItem`, dataItem.cc): globally unique id, owner node
id and payload bytes. -/
structure DataItem where
  dataID : Nat
  owner : Nat
  bytes : List Nat
deriving DecidableEq

/-- The bounded slot container (`Storage`, storage.h): a fixed number of
slots each holding at most one item.  The capacity `m_storageSpace` of
the source equals the slot-vector length (`Init` resizes the vector to
the capacity). -/
structure Storage where
  slots : List (Option DataItem)
deriving DecidableEq

/-- Capacity of the container (`m_storageSpace`). -/
def Storage.space (st : Storage) : Nat := st.slots.length

/-- Storage::Init — all slots empty. -/
def Storage.init (capacity : Nat) : Storage := ⟨List.replicate capacity none⟩

/-- Loop body of Storage::StoreItem: place the item into the first empty
slot, returning whether a slot was found. -/
def storeSlots : List (Option DataItem) → DataItem → Bool × List (Option DataItem)
  | [], _ => (false, [])
  | none :: rest, d => (true, some d :: rest)
  | some x :: rest, d =>
      let r := storeSlots rest d
      (r.1, some x :: r.2)

/-- Storage::StoreItem (storage.cc lines 18-29): first empty slot wins;
returns false when the container is full. -/
def Storage.StoreItem (st : Storage) (d : DataItem) : Bool × Storage :=
  let r := storeSlots st.slots d
  (r.1, ⟨r.2⟩)

/-- Loop body of Storage::GetItem: linear scan for the first slot
holding an item with the requested id. -/
def getSlots : List (Option DataItem) → Nat → Option DataItem
  | [], _ => none
  | none :: rest, dataID => getSlots rest dataID
  | some x :: rest, dataID => if x.dataID = dataID then some x else getSlots rest dataID

/-- Storage::GetItem. -/
def Storage.GetItem (st : Storage) (dataID : Nat) : Option DataItem :=
  getSlots st.slots dataID

/-- Storage::GetAll: every held item, in slot order. -/
def Storage.GetAll (st : Storage) : List DataItem := st.slots.filterMap id

/-- Number of occupied slots (the count inside Storage::GetFreeSpace). -/
def Storage.countItems (st : Storage) : Nat := (st.slots.filter Option.isSome).length

/-- Storage::GetFreeSpace: capacity minus occupied slots. -/
def Storage.GetFreeSpace (st : Storage) : Nat := st.space - st.countItems

/-- Storage::ClearStorage: every slot emptied (the slot vector keeps its
length). -/
def Storage.ClearStorage (st : Storage) : Storage := Storage.init st.space

/-- Node role (`RhpmanApp::Role`). -/
inductive Role where
  | NON_REPLICATING
  | REPLICATING
deriving DecidableEq

/-- Application lifecycle state (`RhpmanApp::State`). -/
inductive State where
  | NOT_STARTED
  | RUNNING
  | STOPPED
deriving DecidableEq

/-- The tagged payload union of the protobuf `rhpman::packets::Message`
(§ proto/messages.proto, dispatched in RhpmanApp::HandleRequest). -/
inductive Payload where
  | ping (delivery : ℚ)
  | announce
  | election
  | fitness (f : ℚ)
  | modeChange (oldNode newNode : Nat)
  | store (item : DataItem)
  | request (dataID : Nat) (requestor : Nat) (sigma : ℚ)
  | response (requestID : Nat) (item : DataItem)
  | transfer (items : List DataItem)
deriving DecidableEq

/-- A message envelope: process-wide unique id plus payload (the
timestamp field plays no role in any handler and is omitted). -/
structure Message where
  id : Nat
  payload : Payload
deriving DecidableEq

/-- Observable effects of a handler: callback invocations and outbound
packets (unicast via m_socket_recv, broadcast via the neighborhood or
election socket). -/
inductive Output where
  | successCb (item : DataItem)
  | failedCb (dataID : Nat)
  | unicast (dest : Nat) (msg : Message)
  | broadcastN (msg : Message)
  | broadcastE (msg : Message)
deriving DecidableEq

/-- Compile-time and attribute configuration of RhpmanApp. -/
structure Config where
  forwardingThreshold : ℚ
  carryingThreshold : ℚ
  wcdc : ℚ
  wcol : ℚ
  electionCooldown : Nat
  nodeId : Nat
  checkBuffer : Bool
  carrierForwarding : Bool
deriving DecidableEq

/-- The mutable per-node state of RhpmanApp (member fields of rhpman.h).
`msgCounter` embeds the static counter behind GenerateMessageID;
`election_watchdog_armed` and `replica_announcement_scheduled` model
whether the corresponding EventId is pending. -/
structure NodeState where
  m_state : State
  m_role : Role
  m_storage : Storage
  m_buffer : Storage
  m_address : Nat
  m_storageSpace : Nat
  m_bufferSpace : Nat
  m_peerProfiles : List (Nat × ℚ)
  m_peerFitness : List (Nat × ℚ)
  m_myFitness : ℚ
  m_replicating_nodes : Finset Nat
  m_pendingLookups : Finset Nat
  m_lookupMapping : List (Nat × Nat)
  m_received_messages : Finset Nat
  m_min_election_time : Nat
  msgCounter : Nat
  socket_recv : Bool
  neighborhood_socket : Bool
  election_socket : Bool
  election_watchdog_armed : Bool
  replica_announcement_scheduled : Bool
deriving DecidableEq

/-- Insert-or-update on a `std::map` modelled as an association list. -/
def mapInsert {β : Type} (m : List (Nat × β)) (k : Nat) (v : β) : List (Nat × β) :=
  (k, v) :: m.filter (fun p => p.1 ≠ k)

/-- Lookup in a `std::map` modelled as an association list; absent keys
default to `d` (the source dereferences the iterator unchecked). -/
def mapFind {β : Type} (m : List (Nat × β)) (k : Nat) (d : β) : β :=
  match m.find? (fun p => p.1 = k) with
  | some p => p.2
  | none => d

/-- RhpmanApp::GenerateMessageID: a monotone counter; every call returns
a fresh id. -/
def GenerateMessageID (s : NodeState) : Nat × NodeState :=
  (s.msgCounter + 1, { s with msgCounter := s.msgCounter + 1 })

/-- RhpmanApp::CalculateChangeDegree (U_cdc): the source returns 0. -/
def CalculateChangeDegree (_s : NodeState) : ℚ := 0

/-- RhpmanApp::CalculateColocation (U_col): 1 for a replicating node,
otherwise 0 (the routing-table check is not implemented). -/
def CalculateColocation (s : NodeState) : ℚ :=
  if s.m_role = Role.REPLICATING then 1 else 0

/-- RhpmanApp::CalculateProfile (P_ij). -/
def CalculateProfile (cfg : Config) (s : NodeState) : ℚ :=
  if s.m_role = Role.REPLICATING then 1
  else cfg.wcdc * CalculateChangeDegree s + cfg.wcol * CalculateColocation s

/-- RhpmanApp::CalculateElectionFitness: sets and returns 0. -/
def CalculateElectionFitness (s : NodeState) : NodeState :=
  { s with m_myFitness := 0 }

/-- RhpmanApp::GetRecipientAddresses (rhpman.cc lines 858-867): every
peer whose profile value is at least sigma. -/
def GetRecipientAddresses (s : NodeState) (sigma : ℚ) : Finset Nat :=
  ((s.m_peerProfiles.filter (fun p => sigma ≤ p.2)).map Prod.fst).toFinset

/-- RhpmanApp::FilterAddresses: remove every excluded address. -/
def FilterAddresses (addresses exclude : Finset Nat) : Finset Nat :=
  addresses \ exclude

/-- RhpmanApp::FilterAddress: remove one excluded address. -/
def FilterAddress (addresses : Finset Nat) (exclude : Nat) : Finset Nat :=
  addresses.erase exclude

/-- RhpmanApp::SendToNodes: one unicast per node, in `std::set`
iteration (ascending) order. -/
def SendToNodes (msg : Message) (nodes : Finset Nat) : List Output :=
  (nodes.sort (· ≤ ·)).map (fun n => Output.unicast n msg)

/-- The recipient set computed inside RhpmanApp::SemiProbabilisticSend
(rhpman.cc lines 322-324): profile-selected peers minus the replica set
minus the relay source. -/
def SemiProbabilisticRecipients (s : NodeState) (srcAddr : Nat) (sigma : ℚ) : Finset Nat :=
  FilterAddress (FilterAddresses (GetRecipientAddresses s sigma) s.m_replicating_nodes) srcAddr

/-- RhpmanApp::SemiProbabilisticSend: unicast to every replica holder,
then to the filtered profile-selected recipients. -/
def SemiProbabilisticSend (s : NodeState) (msg : Message) (srcAddr : Nat) (sigma : ℚ) :
    List Output :=
  SendToNodes msg s.m_replicating_nodes ++
    SendToNodes msg (SemiProbabilisticRecipients s srcAddr sigma)

/-- RhpmanApp::CheckLocalStorage (rhpman.cc lines 999-1013): the storage
is always consulted; the buffer only under the
`__RHPMAN_OPTIONAL_CHECK_BUFFER` flag. -/
def CheckLocalStorage (cfg : Config) (s : NodeState) (dataID : Nat) : Option DataItem :=
  match s.m_storage.GetItem dataID with
  | some item => some item
  | none => if cfg.checkBuffer then s.m_buffer.GetItem dataID else none

/-- RhpmanApp::ScheduleLookupTimeout: record the pending request and its
data id (the timeout event itself is delivered as a trace event). -/
def ScheduleLookupTimeout (s : NodeState) (requestID dataID : Nat) : NodeState :=
  if s.m_state ≠ State.RUNNING then s
  else
    { s with
      m_pendingLookups := insert requestID s.m_pendingLookups
      m_lookupMapping := mapInsert s.m_lookupMapping requestID dataID }

/-- RhpmanApp::LookupFromReplicaHolders: the request envelope reuses the
request id (GenerateLookup sets message.id to it); the timeout is only
scheduled when this node itself originated the lookup. -/
def LookupFromReplicaHolders (s : NodeState) (dataID requestID srcNode : Nat) :
    NodeState × List Output :=
  let msg : Message := ⟨requestID, Payload.request dataID srcNode 0⟩
  let outs := SendToNodes msg s.m_replicating_nodes
  if srcNode = s.m_address then (ScheduleLookupTimeout s requestID dataID, outs)
  else (s, outs)

/-- RhpmanApp::RunProbabilisticLookup (rhpman.cc lines 788-801). -/
def RunProbabilisticLookup (cfg : Config) (s : NodeState) (requestID dataID srcNode : Nat) :
    NodeState × List Output :=
  if s.m_replicating_nodes.card ≠ 0 then
    LookupFromReplicaHolders s dataID requestID srcNode
  else
    let sigma := CalculateProfile cfg s
    let msg : Message := ⟨requestID, Payload.request dataID srcNode sigma⟩
    let outs := SemiProbabilisticSend s msg srcNode sigma
    (ScheduleLookupTimeout s requestID dataID, outs)

/-- RhpmanApp::Lookup (rhpman.cc lines 231-242): the public lookup
entry point. -/
def Lookup (cfg : Config) (s : NodeState) (dataID : Nat) : NodeState × List Output :=
  match CheckLocalStorage cfg s dataID with
  | some item => (s, [Output.successCb item])
  | none =>
      let r := GenerateMessageID s
      RunProbabilisticLookup cfg r.2 r.1 dataID r.2.m_address

/-- RhpmanApp::Save (rhpman.cc lines 246-253): store locally, then
disseminate regardless of the local result. -/
def Save (cfg : Config) (s : NodeState) (data : DataItem) : Bool × NodeState × List Output :=
  let r := s.m_storage.StoreItem data
  let s1 := { s with m_storage := r.2 }
  let g := GenerateMessageID s1
  let msg : Message := ⟨g.1, Payload.store data⟩
  (r.1, g.2, SemiProbabilisticSend g.2 msg 0 cfg.forwardingThreshold)

/-- RhpmanApp::HandleResponse (rhpman.cc lines 765-770): a matching
pending request is removed and the success callback fires; anything
else is silently discarded. -/
def HandleResponse (s : NodeState) (requestID : Nat) (data : DataItem) :
    NodeState × List Output :=
  if requestID ∈ s.m_pendingLookups then
    ({ s with m_pendingLookups := s.m_pendingLookups.erase requestID },
      [Output.successCb data])
  else (s, [])

/-- RhpmanApp::LookupTimeout (rhpman.cc lines 932-942): a still-pending
request is removed and the failure callback fires with its data id. -/
def LookupTimeout (s : NodeState) (requestID : Nat) : NodeState × List Output :=
  if requestID ∈ s.m_pendingLookups then
    ({ s with m_pendingLookups := s.m_pendingLookups.erase requestID },
      [Output.failedCb (mapFind s.m_lookupMapping requestID 0)])
  else (s, [])

/-- RhpmanApp::RunElection (rhpman.cc lines 803-809): push the earliest
next election time forward, reset the fitness, broadcast fitness (the
source's SendFitness body is empty, so nothing is sent) and schedule
the election check. -/
def RunElection (cfg : Config) (s : NodeState) (now : Nat) : NodeState × List Output :=
  let s1 := { s with m_min_election_time := now + cfg.electionCooldown }
  (CalculateElectionFitness s1, [])

/-- RhpmanApp::TriggerElection (rhpman.cc lines 947-958): guarded by the
cooldown; broadcasts an Election request and runs the election. -/
def TriggerElection (cfg : Config) (s : NodeState) (now : Nat) : NodeState × List Output :=
  if now < s.m_min_election_time then (s, [])
  else
    let g := GenerateMessageID s
    let r := RunElection cfg g.2 now
    (r.1, Output.broadcastE ⟨g.1, Payload.election⟩ :: r.2)

/-- RhpmanApp::HandleElectionRequest: guarded by the cooldown. -/
def HandleElectionRequest (cfg : Config) (s : NodeState) (now : Nat) :
    NodeState × List Output :=
  if now < s.m_min_election_time then (s, []) else RunElection cfg s now

/-- RhpmanApp::GetNewRole (rhpman.cc lines 974-981): any strictly larger
recorded vote demotes the node; otherwise it wins. -/
def GetNewRole (s : NodeState) : Role :=
  if s.m_peerFitness.any (fun p => s.m_myFitness < p.2) then Role.NON_REPLICATING
  else Role.REPLICATING

/-- RhpmanApp::ResetFitnesses. -/
def ResetFitnesses (s : NodeState) : NodeState :=
  { s with m_myFitness := 0, m_peerFitness := [] }

/-- RhpmanApp::ScheduleReplicaHolderAnnouncement: when running, send the
announcement and mark the periodic event as scheduled. -/
def ScheduleReplicaHolderAnnouncement (s : NodeState) : NodeState × List Output :=
  if s.m_state ≠ State.RUNNING then (s, [])
  else
    let g := GenerateMessageID s
    ({ g.2 with replica_announcement_scheduled := true },
      [Output.broadcastE ⟨g.1, Payload.announce⟩])

/-- RhpmanApp::MakeReplicaHolderNode (rhpman.cc lines 820-824). -/
def MakeReplicaHolderNode (s : NodeState) : NodeState × List Output :=
  let s1 := { s with m_role := Role.REPLICATING }
  let g := GenerateMessageID s1
  let r := ScheduleReplicaHolderAnnouncement g.2
  (r.1, Output.broadcastE ⟨g.1, Payload.modeChange g.2.m_address g.2.m_address⟩ :: r.2)

/-- RhpmanApp::MakeNonReplicaHolderNode (rhpman.cc lines 827-833). -/
def MakeNonReplicaHolderNode (s : NodeState) : NodeState × List Output :=
  let s1 := { s with m_role := Role.NON_REPLICATING, replica_announcement_scheduled := false }
  let g := GenerateMessageID s1
  (g.2, [Output.broadcastE ⟨g.1, Payload.modeChange g.2.m_address 0⟩])

/-- RhpmanApp::ChangeRole (rhpman.cc lines 811-817). -/
def ChangeRole (s : NodeState) (newRole : Role) : NodeState × List Output :=
  if newRole = Role.REPLICATING then MakeReplicaHolderNode s
  else if s.m_role = Role.REPLICATING ∧ newRole ≠ Role.REPLICATING then
    MakeNonReplicaHolderNode s
  else (s, [])

/-- RhpmanApp::CheckElectionResults (rhpman.cc lines 968-972): the new
role is computed from the recorded votes, then the fitness map is
cleared, then the role change is applied. -/
def CheckElectionResults (s : NodeState) : NodeState × List Output :=
  ChangeRole (ResetFitnesses s) (GetNewRole s)

/-- RhpmanApp::TransferBuffer: send the entire buffer to one node and
clear it. -/
def TransferBuffer (s : NodeState) (nodeID : Nat) : NodeState × List Output :=
  let g := GenerateMessageID s
  let msg : Message := ⟨g.1, Payload.transfer g.2.m_buffer.GetAll⟩
  ({ g.2 with m_buffer := g.2.m_buffer.ClearStorage }, [Output.unicast nodeID msg])

/-- RhpmanApp::HandlePing (rhpman.cc lines 662-675): record the profile;
under the `__RHPMAN_OPTIONAL_CARRIER_FORWARDING` flag hand the buffer to
a strictly fitter peer. -/
def HandlePing (cfg : Config) (s : NodeState) (nodeID : Nat) (profile : ℚ) :
    NodeState × List Output :=
  let s1 := { s with m_peerProfiles := mapInsert s.m_peerProfiles nodeID profile }
  if cfg.carrierForwarding ∧ CalculateProfile cfg s1 < profile then TransferBuffer s1 nodeID
  else (s1, [])

/-- RhpmanApp::HandleReplicationAnnouncement (rhpman.cc lines 677-682):
cancel the watchdog and (re)insert the announcing node. -/
def HandleReplicationAnnouncement (s : NodeState) (nodeID : Nat) : NodeState :=
  { s with
    election_watchdog_armed := false
    m_replicating_nodes := insert nodeID s.m_replicating_nodes }

/-- RhpmanApp::HandleModeChange (rhpman.cc lines 688-702): step-up,
step-down (triggering an election when the view empties) or handover. -/
def HandleModeChange (cfg : Config) (s : NodeState) (now : Nat) (oldNode newNode : Nat) :
    NodeState × List Output :=
  if oldNode = newNode then
    ({ s with m_replicating_nodes := insert newNode s.m_replicating_nodes }, [])
  else if newNode = 0 then
    let s1 := { s with m_replicating_nodes := s.m_replicating_nodes.erase oldNode }
    if s1.m_replicating_nodes.card = 0 then TriggerElection cfg s1 now else (s1, [])
  else
    ({ s with
        m_replicating_nodes := insert newNode (s.m_replicating_nodes.erase oldNode) }, [])

/-- RhpmanApp::HandleElectionFitness. -/
def HandleElectionFitness (s : NodeState) (nodeID : Nat) (fitness : ℚ) : NodeState :=
  { s with m_peerFitness := mapInsert s.m_peerFitness nodeID fitness }

/-- RhpmanApp::HandleLookup (rhpman.cc lines 718-728): answer from local
storage or relay the request. -/
def HandleLookup (cfg : Config) (s : NodeState) (nodeID requestID dataID : Nat) :
    NodeState × List Output :=
  match CheckLocalStorage cfg s dataID with
  | some res =>
      let g := GenerateMessageID s
      (g.2, [Output.unicast nodeID ⟨g.1, Payload.response requestID res⟩])
  | none => RunProbabilisticLookup cfg s requestID dataID nodeID

/-- Loop of RhpmanApp::HandleTransfer: store items until one fails,
counting successes. -/
def storeAllCount : Storage → List DataItem → Nat
  | _, [] => 0
  | st, d :: rest =>
      let r := st.StoreItem d
      if r.1 then storeAllCount r.2 rest + 1 else 0

/-- RhpmanApp::HandleTransfer (rhpman.cc lines 730-742).  In the source,
`Storage storage = m_role == Role::REPLICATING ? m_storage : m_buffer;`
copies the chosen container by value; StoreItem then mutates only the
copy, which is discarded on return, so the node's own containers are
left unchanged. -/
def HandleTransfer (s : NodeState) (data : List DataItem) : Nat × NodeState :=
  let storage := if s.m_role = Role.REPLICATING then s.m_storage else s.m_buffer
  (storeAllCount storage data, s)

/-- RhpmanApp::HandleStore (rhpman.cc lines 744-763). -/
def HandleStore (cfg : Config) (s : NodeState) (nodeID : Nat) (data : DataItem)
    (msg : Message) : NodeState × List Output :=
  if (CheckLocalStorage cfg s data.dataID).isSome then (s, [])
  else if s.m_role = Role.REPLICATING then
    ({ s with m_storage := (s.m_storage.StoreItem data).2 }, [])
  else
    let outs := SemiProbabilisticSend s msg nodeID cfg.forwardingThreshold
    if cfg.carryingThreshold < CalculateProfile cfg s then
      ({ s with m_buffer := (s.m_buffer.StoreItem data).2 }, outs)
    else (s, outs)

/-- RhpmanApp::CheckDuplicateMessage (rhpman.cc lines 780-786): check
membership, then insert. -/
def CheckDuplicateMessage (s : NodeState) (messageID : Nat) : Bool × NodeState :=
  (decide (messageID ∈ s.m_received_messages),
    { s with m_received_messages := insert messageID s.m_received_messages })

/-- Dispatch of RhpmanApp::HandleRequest (rhpman.cc lines 603-660) for a
single parsed envelope: duplicate envelopes are dropped right after the
duplicate check, before any handler runs. -/
def HandleMessage (cfg : Config) (s : NodeState) (now srcAddress : Nat) (msg : Message) :
    NodeState × List Output :=
  let dup := CheckDuplicateMessage s msg.id
  if dup.1 then (dup.2, [])
  else
    let s0 := dup.2
    match msg.payload with
    | Payload.announce => (HandleReplicationAnnouncement s0 srcAddress, [])
    | Payload.ping delivery => HandlePing cfg s0 srcAddress delivery
    | Payload.modeChange o n => HandleModeChange cfg s0 now o n
    | Payload.election => HandleElectionRequest cfg s0 now
    | Payload.fitness f => (HandleElectionFitness s0 srcAddress f, [])
    | Payload.store item => HandleStore cfg s0 srcAddress item msg
    | Payload.request dataID requestor _ => HandleLookup cfg s0 requestor msg.id dataID
    | Payload.response requestID item => HandleResponse s0 requestID item
    | Payload.transfer items => ((HandleTransfer s0 items).2, [])

/-- RhpmanApp::SendPing as reached through SchedulePing: when running,
broadcast the current profile to the neighborhood. -/
def SchedulePing (cfg : Config) (s : NodeState) : NodeState × List Output :=
  if s.m_state ≠ State.RUNNING then (s, [])
  else
    let g := GenerateMessageID s
    (g.2, [Output.broadcastN ⟨g.1, Payload.ping (CalculateProfile cfg g.2)⟩])

/-- RhpmanApp::ScheduleElectionWatchdog. -/
def ScheduleElectionWatchdog (s : NodeState) : NodeState :=
  if s.m_state ≠ State.RUNNING then s else { s with election_watchdog_armed := true }

/-- RhpmanApp::StartApplication (rhpman.cc lines 157-190): a running
instance ignores the request; otherwise sockets are opened, the
containers initialised, the address latched, the state set to RUNNING,
the periodic ping and the watchdog armed and an initial election run. -/
def StartApplication (cfg : Config) (s : NodeState) (now : Nat) : NodeState × List Output :=
  if s.m_state = State.RUNNING then (s, [])
  else
    let s1 :=
      { s with
        m_state := State.RUNNING
        socket_recv := true
        neighborhood_socket := true
        election_socket := true
        m_storage := Storage.init s.m_storageSpace
        m_buffer := Storage.init s.m_bufferSpace
        m_address := cfg.nodeId }
    let p := SchedulePing cfg s1
    let s2 := ScheduleElectionWatchdog p.1
    let r := RunElection cfg s2 now
    (r.1, p.2 ++ r.2)

/-- RhpmanApp::StopApplication (rhpman.cc lines 193-224): stop on a
NOT_STARTED instance is an error and a no-op; otherwise (also when
already STOPPED) sockets are closed, the state set to STOPPED and every
timer cancelled. -/
def StopApplication (s : NodeState) : NodeState × List Output :=
  if s.m_state = State.NOT_STARTED then (s, [])
  else
    ({ s with
        socket_recv := false
        neighborhood_socket := false
        election_socket := false
        m_state := State.STOPPED
        election_watchdog_armed := false
        replica_announcement_scheduled := false }, [])

/-!  Trace semantics for the lookup tracker: after a lookup request has
been registered, the only events that can touch it are an incoming
Response envelope (dispatched to HandleResponse) and the firing of its
scheduled request timeout (LookupTimeout). -/

/-- An event affecting the lookup tracker. -/
inductive LookupEvent where
  | response (requestID : Nat) (item : DataItem)
  | timeout (requestID : Nat)
deriving DecidableEq

/-- One lookup-tracker event, dispatched as in the source. -/
def lookupStep (s : NodeState) : LookupEvent → NodeState × List Output
  | LookupEvent.response r item => HandleResponse s r item
  | LookupEvent.timeout r => LookupTimeout s r

/-- A sequence of lookup-tracker events, collecting all outputs. -/
def lookupRun (s : NodeState) : List LookupEvent → NodeState × List Output
  | [] => (s, [])
  | e :: rest =>
      ((lookupRun (lookupStep s e).1 rest).1,
        (lookupStep s e).2 ++ (lookupRun (lookupStep s e).1 rest).2)

/-- Whether an output is a lookup callback invocation (success or
failure). -/
def isCallback : Output → Bool
  | Output.successCb _ => true
  | Output.failedCb _ => true
  | _ => false

/-- Number of lookup callbacks fired in an output list. -/
def countCallbacks (outs : List Output) : Nat := (outs.filter isCallback).length

/-- Number of timeout firings for a given request in an event trace. -/
def countTimeouts (r : Nat) (evs : List LookupEvent) : Nat :=
  (evs.filter (fun e => e = LookupEvent.timeout r)).length

/-!  Trace semantics for the assignments to `m_min_election_time`.  The
field is written only inside RunElection, reached from StartApplication
(unguarded), from HandleElectionRequest on receiving an Election
envelope (cooldown-guarded) and from TriggerElection (cooldown-guarded;
the watchdog expiry, the step-down ModeChange path and the replication
node timeout all land there). -/

/-- The engine entry points that can reach RunElection. -/
inductive ElectionEvent where
  | startApp
  | electionRequest
  | triggerElection
deriving DecidableEq

/-- One election-relevant event at simulator time `now`. -/
def electionStep (cfg : Config) (s : NodeState) (now : Nat) : ElectionEvent → NodeState
  | ElectionEvent.startApp => (StartApplication cfg s now).1
  | ElectionEvent.electionRequest => (HandleElectionRequest cfg s now).1
  | ElectionEvent.triggerElection => (TriggerElection cfg s now).1

/-- A timed sequence of election-relevant events. -/
def electionRun (cfg : Config) (s : NodeState) : List (Nat × ElectionEvent) → NodeState
  | [] => s
  | te :: rest => electionRun cfg (electionStep cfg s te.1 te.2) rest

/-- No data id occupies two slots of a container (the wording of
invariant 1 / property P4 of the specification). -/
def Storage.noDuplicateIds (st : Storage) : Prop :=
  (st.GetAll.map DataItem.dataID).Nodup

instance (st : Storage) : Decidable st.noDuplicateIds := by
  unfold Storage.noDuplicateIds
  infer_instance

/-!  Concrete fixtures for witnesses and counterexamples. -/

/-- The source-default configuration (attribute defaults of
RhpmanApp::GetTypeId; both optional feature flags off). -/
def defaultConfig : Config :=
  { forwardingThreshold := 2/5
    carryingThreshold := 3/5
    wcdc := 1/2
    wcol := 1/2
    electionCooldown := 1
    nodeId := 1
    checkBuffer := false
    carrierForwarding := false }

/-- A freshly constructed node (constructor defaults of rhpman.h) with
storage and buffer capacity 2, already started. -/
def baseNode : NodeState :=
  { m_state := State.RUNNING
    m_role := Role.NON_REPLICATING
    m_storage := Storage.init 2
    m_buffer := Storage.init 2
    m_address := 1
    m_storageSpace := 2
    m_bufferSpace := 2
    m_peerProfiles := []
    m_peerFitness := []
    m_myFitness := 0
    m_replicating_nodes := ∅
    m_pendingLookups := ∅
    m_lookupMapping := []
    m_received_messages := ∅
    m_min_election_time := 0
    msgCounter := 0
    socket_recv := true
    neighborhood_socket := true
    election_socket := true
    election_watchdog_armed := true
    replica_announcement_scheduled := false }

/-- A concrete data item with id 42. -/
def item42 : DataItem := ⟨42, 1, [7, 7]⟩

/-- A concrete data item with id 5. -/
def item5 : DataItem := ⟨5, 1, [9]⟩

/-!  Helper lemmas. -/

theorem ChangeRole_replicating_role (s : NodeState) :
    ((ChangeRole s Role.REPLICATING).1).m_role = Role.REPLICATING := by
  by_cases hs : s.m_state = State.RUNNING
  · simp [ChangeRole, MakeReplicaHolderNode, ScheduleReplicaHolderAnnouncement,
      GenerateMessageID, hs]
  · simp [ChangeRole, MakeReplicaHolderNode, ScheduleReplicaHolderAnnouncement,
      GenerateMessageID, hs]

theorem countCallbacks_append (o1 o2 : List Output) :
    countCallbacks (o1 ++ o2) = countCallbacks o1 + countCallbacks o2 := by
  unfold countCallbacks
  rw [List.filter_append, List.length_append]

theorem lookupRun_of_no_pending (evs : List LookupEvent) (s : NodeState)
    (h : s.m_pendingLookups = ∅) : lookupRun s evs = (s, []) := by
  induction evs generalizing s with
  | nil => rfl
  | cons e rest ih =>
      have hstep : lookupStep s e = (s, []) := by
        cases e with
        | response r item =>
            show HandleResponse s r item = (s, [])
            unfold HandleResponse
            rw [h]
            simp
        | timeout r =>
            show LookupTimeout s r = (s, [])
            unfold LookupTimeout
            rw [h]
            simp
      unfold lookupRun
      rw [hstep]
      simp [ih s h]

/-!  C2: duplicate envelope suppression. -/

/-- C2: re-delivering an envelope whose id has already been handled is
dropped on the receive path before any side effect: the handler returns
the state unchanged (the duplicate-id set insert is a no-op) and fires
no callback and no outbound packet. -/
theorem duplicate_envelope_no_side_effect (cfg : Config) (s : NodeState)
    (now src : Nat) (msg : Message) (h : msg.id ∈ s.m_received_messages) :
    HandleMessage cfg s now src msg = (s, []) := by
  unfold HandleMessage CheckDuplicateMessage
  simp only [decide_eq_true_eq, h, if_pos, Finset.insert_eq_self.mpr h]

/-- Witness for C2 at a concrete duplicate envelope. -/
theorem duplicate_envelope_no_side_effect_witness :
    HandleMessage defaultConfig
        { baseNode with m_received_messages := {1000} } 7 2 ⟨1000, Payload.election⟩ =
      ({ baseNode with m_received_messages := {1000} }, []) :=
  duplicate_envelope_no_side_effect defaultConfig
    { baseNode with m_received_messages := {1000} } 7 2 ⟨1000, Payload.election⟩ (by decide)

/-!  C8: lookup that hits local storage. -/

/-- C8: when the requested id is held in local Storage (or, with the
check-buffer option enabled, in the Buffer), Lookup fires the success
callback synchronously with the stored item and returns with the node
state unchanged: no outbound packet, no pending lookup entry, no
timeout. -/
theorem lookup_local_hit_synchronous (cfg : Config) (s : NodeState) (dataID : Nat)
    (item : DataItem)
    (h : s.m_storage.GetItem dataID = some item ∨
      (cfg.checkBuffer = true ∧ s.m_storage.GetItem dataID = none ∧
        s.m_buffer.GetItem dataID = some item)) :
    Lookup cfg s dataID = (s, [Output.successCb item]) := by
  have hcl : CheckLocalStorage cfg s dataID = some item := by
    unfold CheckLocalStorage
    rcases h with h | ⟨hb, hn, hbuf⟩
    · rw [h]
    · rw [hn, hb, if_pos rfl, hbuf]
  unfold Lookup
  rw [hcl]

/-- Witness for C8: a node holding item 42 answers lookup 42
synchronously. -/
theorem lookup_local_hit_synchronous_witness :
    Lookup defaultConfig { baseNode with m_storage := ⟨[some item42, none]⟩ } 42 =
      ({ baseNode with m_storage := ⟨[some item42, none]⟩ }, [Output.successCb item42]) :=
  lookup_local_hit_synchronous defaultConfig
    { baseNode with m_storage := ⟨[some item42, none]⟩ } 42 item42 (Or.inl (by decide))

/-!  C9: lifecycle guards. -/

/-- C9: StartApplication on a RUNNING instance is a no-op leaving all
state unchanged; StopApplication on a STOPPED instance leaves the state
STOPPED; StopApplication on a NOT_STARTED instance is an error path
that changes nothing. -/
theorem lifecycle_guarded (cfg : Config) (s : NodeState) (now : Nat) :
    (s.m_state = State.RUNNING → StartApplication cfg s now = (s, [])) ∧
    (s.m_state = State.STOPPED → (StopApplication s).1.m_state = State.STOPPED) ∧
    (s.m_state = State.NOT_STARTED → StopApplication s = (s, [])) := by
  refine ⟨fun h => ?_, fun h => ?_, fun h => ?_⟩
  · unfold StartApplication
    rw [if_pos h]
  · unfold StopApplication
    rw [if_neg (by rw [h]; exact fun hc => State.noConfusion hc)]
  · unfold StopApplication
    rw [if_pos h]

/-- Witness for C9 at concrete engine states. -/
theorem lifecycle_guarded_witness :
    StartApplication defaultConfig baseNode 0 = (baseNode, []) ∧
    (StopApplication { baseNode with m_state := State.STOPPED }).1.m_state = State.STOPPED ∧
    StopApplication { baseNode with m_state := State.NOT_STARTED } =
      ({ baseNode with m_state := State.NOT_STARTED }, []) :=
  ⟨(lifecycle_guarded defaultConfig baseNode 0).1 rfl,
    (lifecycle_guarded defaultConfig { baseNode with m_state := State.STOPPED } 0).2.1 rfl,
    (lifecycle_guarded defaultConfig { baseNode with m_state := State.NOT_STARTED } 0).2.2 rfl⟩

/-!  C10: the election decision with no recorded votes. -/

/-- C10: when no fitness votes are recorded at election-decision time,
GetNewRole returns REPLICATING, so the node decides it is the winner
and becomes (or stays) a replica holder. -/
theorem empty_votes_elects_self (s : NodeState) (h : s.m_peerFitness = []) :
    ((CheckElectionResults s).1).m_role = Role.REPLICATING := by
  have hrole : GetNewRole s = Role.REPLICATING := by
    unfold GetNewRole
    rw [h]
    rfl
  unfold CheckElectionResults
  rw [hrole]
  exact ChangeRole_replicating_role (ResetFitnesses s)

/-- Witness for C10: a node with an empty vote map elects itself. -/
theorem empty_votes_elects_self_witness :
    ((CheckElectionResults baseNode).1).m_role = Role.REPLICATING :=
  empty_votes_elects_self baseNode rfl

/-!  C3: the Transfer handler. -/

/-- C3 (code bug): at the concrete failing input — a NON_REPLICATING
node with an empty two-slot Buffer receiving a Transfer of one item —
the handler reports one item stored, yet returns the node state
unchanged: the source stores into a by-value copy of the container, so
the item is not present in the node's Buffer (nor Storage) afterwards,
contradicting the specification's mandate that items are actually
stored. -/
theorem handleTransfer_discards_items :
    HandleTransfer baseNode [item5] = (1, baseNode) ∧
    baseNode.m_buffer.GetItem 5 = none ∧
    baseNode.m_storage.GetItem 5 = none :=
  ⟨rfl, rfl, rfl⟩

/-!  C4: the election decision and its tie-break. -/

theorem ChangeRole_non_replicating_role (s : NodeState) :
    ((ChangeRole s Role.NON_REPLICATING).1).m_role = Role.NON_REPLICATING := by
  unfold ChangeRole
  rw [if_neg (fun hc => Role.noConfusion hc)]
  by_cases hr : s.m_role = Role.REPLICATING
  · rw [if_pos ⟨hr, fun hc => Role.noConfusion hc⟩]
    simp [MakeNonReplicaHolderNode, GenerateMessageID]
  · rw [if_neg (fun hc => hr hc.1)]
    cases hrole : s.m_role with
    | NON_REPLICATING => rfl
    | REPLICATING => exact absurd hrole hr

theorem ChangeRole_role_eq (s : NodeState) (newRole : Role) :
    ((ChangeRole s newRole).1).m_role = newRole := by
  cases newRole with
  | NON_REPLICATING => exact ChangeRole_non_replicating_role s
  | REPLICATING => exact ChangeRole_replicating_role s

theorem GetNewRole_eq_replicating_iff (s : NodeState) :
    GetNewRole s = Role.REPLICATING ↔ ∀ p ∈ s.m_peerFitness, p.2 ≤ s.m_myFitness := by
  unfold GetNewRole
  constructor
  · intro hrepl p hp
    by_contra hlt
    push_neg at hlt
    have hany : s.m_peerFitness.any (fun q => decide (s.m_myFitness < q.2)) = true :=
      List.any_eq_true.mpr ⟨p, hp, by simpa using hlt⟩
    rw [if_pos hany] at hrepl
    exact Role.noConfusion hrepl
  · intro hall
    rw [if_neg]
    intro hany
    obtain ⟨p, hp, hlt⟩ := List.any_eq_true.mp hany
    exact absurd (hall p hp) (not_le.mpr (by simpa using hlt))

/-- C4 amended: when the election decision fires, the node ends in role
REPLICATING iff its own fitness is at least every recorded vote;
contrary to the claimed tie-break, ties are decided in favour of the
deciding node itself, so a NON_REPLICATING node whose fitness equals
the maximum recorded vote does become REPLICATING. -/
theorem election_winner_iff_no_larger_vote (s : NodeState) :
    ((CheckElectionResults s).1).m_role = Role.REPLICATING ↔
      ∀ p ∈ s.m_peerFitness, p.2 ≤ s.m_myFitness := by
  unfold CheckElectionResults
  rw [ChangeRole_role_eq]
  exact GetNewRole_eq_replicating_iff s

/-- A NON_REPLICATING node with fitness 0 holding one recorded vote of
equal fitness 0. -/
def tieNode : NodeState := { baseNode with m_peerFitness := [(2, 0)] }

/-- C4 counterexample: at the tie state, the claim's tie-break — that a
NonReplicating node whose fitness merely equals the maximum vote does
not become Replicating — is false: the node becomes REPLICATING. -/
theorem election_tie_challenger_promoted_cex :
    tieNode.m_role = Role.NON_REPLICATING ∧
    tieNode.m_myFitness = 0 ∧
    tieNode.m_peerFitness = [(2, 0)] ∧
    ((CheckElectionResults tieNode).1).m_role = Role.REPLICATING :=
  ⟨rfl, rfl, rfl, by decide⟩

/-!  C5: container capacity and duplicate ids. -/

theorem storeSlots_of_full (slots : List (Option DataItem)) (d : DataItem)
    (h : (slots.filter Option.isSome).length = slots.length) :
    storeSlots slots d = (false, slots) := by
  induction slots with
  | nil => rfl
  | cons x rest ih =>
      cases x with
      | none =>
          exfalso
          have hf : (none :: rest).filter Option.isSome = rest.filter Option.isSome := by
            simp
          rw [hf, List.length_cons] at h
          have := List.length_filter_le Option.isSome rest
          omega
      | some y =>
          simp only [List.filter_cons, Option.isSome_some, if_pos, List.length_cons,
            Nat.add_right_cancel_iff] at h
          simp [storeSlots, ih h]

/-- C5 amended: each container holds at most `capacity` items, and a
store into a full container returns false and leaves it unchanged; the
no-duplicate part of the claim does not hold (StoreItem never checks
ids, and Save stores unconditionally — see the counterexample), though
the receive-path Store handler does check local presence first. -/
theorem storage_capacity_store_full (st : Storage) (d : DataItem)
    (h : st.GetFreeSpace = 0) :
    st.countItems ≤ st.space ∧ st.StoreItem d = (false, st) := by
  have hle : st.countItems ≤ st.space := List.length_filter_le _ _
  refine ⟨hle, ?_⟩
  have heq : (st.slots.filter Option.isSome).length = st.slots.length := by
    unfold Storage.GetFreeSpace Storage.space Storage.countItems at h hle
    omega
  unfold Storage.StoreItem
  rw [storeSlots_of_full st.slots d heq]

/-- Witness for the amended C5 at a concrete full container. -/
theorem storage_capacity_store_full_witness :
    Storage.countItems ⟨[some item5]⟩ ≤ Storage.space ⟨[some item5]⟩ ∧
    Storage.StoreItem ⟨[some item5]⟩ item42 = (false, ⟨[some item5]⟩) :=
  storage_capacity_store_full ⟨[some item5]⟩ item42 (by decide)

/-- C5 counterexample: two Save calls with the same data id place the
id in two slots of Storage, so "no id appears twice in the same
container" fails on the Save path. -/
theorem save_duplicate_id_cex :
    ¬ Storage.noDuplicateIds
        ((Save defaultConfig (Save defaultConfig baseNode item5).2.1 item5).2.1.m_storage) := by
  decide

/-!  C7: antitonicity of the dissemination recipient set. -/

theorem GetRecipientAddresses_antitone (s : NodeState) (σ1 σ2 : ℚ) (h : σ1 ≤ σ2) :
    GetRecipientAddresses s σ2 ⊆ GetRecipientAddresses s σ1 := by
  intro x hx
  unfold GetRecipientAddresses at hx ⊢
  simp only [List.mem_toFinset, List.mem_map, List.mem_filter, decide_eq_true_eq] at hx ⊢
  obtain ⟨p, ⟨hmem, hge⟩, hfst⟩ := hx
  exact ⟨p, ⟨hmem, le_trans h hge⟩, hfst⟩

/-- C7: the recipient set computed by the dissemination engine —
profile-selected peers minus the replica set minus the relay source —
is antitone in the threshold sigma. -/
theorem forwarding_recipients_antitone (s : NodeState) (src : Nat) (σ1 σ2 : ℚ)
    (h : σ1 ≤ σ2) :
    SemiProbabilisticRecipients s src σ2 ⊆ SemiProbabilisticRecipients s src σ1 := by
  unfold SemiProbabilisticRecipients FilterAddress FilterAddresses
  exact Finset.erase_subset_erase _
    (Finset.sdiff_subset_sdiff (GetRecipientAddresses_antitone s σ1 σ2 h)
      (Finset.Subset.refl _))

/-- A node knowing two peer profiles. -/
def profiledNode : NodeState :=
  { baseNode with m_peerProfiles := [(2, 1/2), (3, 1/5)] }

/-- Witness for C7 at concrete thresholds 0 ≤ 1. -/
theorem forwarding_recipients_antitone_witness :
    SemiProbabilisticRecipients profiledNode 0 1 ⊆
      SemiProbabilisticRecipients profiledNode 0 0 :=
  forwarding_recipients_antitone profiledNode 0 0 1 (by decide)

/-!  C1: exactly one callback per lookup request. -/

theorem countTimeouts_cons_response (r r' : Nat) (item : DataItem)
    (rest : List LookupEvent) :
    countTimeouts r (LookupEvent.response r' item :: rest) = countTimeouts r rest := by
  simp [countTimeouts, List.filter_cons]

theorem countTimeouts_cons_timeout (r r' : Nat) (rest : List LookupEvent) :
    countTimeouts r (LookupEvent.timeout r' :: rest) =
      (if r' = r then 1 else 0) + countTimeouts r rest := by
  by_cases hr : r' = r
  · subst hr
    simp [countTimeouts, List.filter_cons, Nat.add_comm]
  · simp [countTimeouts, List.filter_cons, hr]

theorem lookupRun_count_one (r : Nat) (evs : List LookupEvent) :
    ∀ s : NodeState, s.m_pendingLookups = {r} → countTimeouts r evs = 1 →
      countCallbacks (lookupRun s evs).2 = 1 := by
  induction evs with
  | nil =>
      intro s _ ht
      simp [countTimeouts] at ht
  | cons e rest ih =>
      intro s hp ht
      cases e with
      | response r' item =>
          by_cases hr : r' = r
          · subst hr
            have hmem : r' ∈ s.m_pendingLookups := by
              rw [hp]; exact Finset.mem_singleton_self r'
            have hempty :
                ({ s with m_pendingLookups := s.m_pendingLookups.erase r' } :
                    NodeState).m_pendingLookups = ∅ := by
              simp [hp]
            have hstep : lookupStep s (LookupEvent.response r' item) =
                ({ s with m_pendingLookups := s.m_pendingLookups.erase r' },
                  [Output.successCb item]) := by
              show HandleResponse s r' item = _
              unfold HandleResponse
              rw [if_pos hmem]
            unfold lookupRun
            rw [hstep, lookupRun_of_no_pending rest _ hempty]
            simp [countCallbacks, isCallback]
          · have hnot : r' ∉ s.m_pendingLookups := by
              rw [hp]; simp [hr]
            have hstep : lookupStep s (LookupEvent.response r' item) = (s, []) := by
              show HandleResponse s r' item = _
              unfold HandleResponse
              rw [if_neg hnot]
            have ht' : countTimeouts r rest = 1 := by
              rwa [countTimeouts_cons_response] at ht
            unfold lookupRun
            rw [hstep]
            simp [ih s hp ht']
      | timeout r' =>
          by_cases hr : r' = r
          · subst hr
            have hmem : r' ∈ s.m_pendingLookups := by
              rw [hp]; exact Finset.mem_singleton_self r'
            have hempty :
                ({ s with m_pendingLookups := s.m_pendingLookups.erase r' } :
                    NodeState).m_pendingLookups = ∅ := by
              simp [hp]
            have hstep : lookupStep s (LookupEvent.timeout r') =
                ({ s with m_pendingLookups := s.m_pendingLookups.erase r' },
                  [Output.failedCb (mapFind s.m_lookupMapping r' 0)]) := by
              show LookupTimeout s r' = _
              unfold LookupTimeout
              rw [if_pos hmem]
            unfold lookupRun
            rw [hstep, lookupRun_of_no_pending rest _ hempty]
            simp [countCallbacks, isCallback]
          · have hnot : r' ∉ s.m_pendingLookups := by
              rw [hp]; simp [hr]
            have hstep : lookupStep s (LookupEvent.timeout r') = (s, []) := by
              show LookupTimeout s r' = _
              unfold LookupTimeout
              rw [if_neg hnot]
            have ht' : countTimeouts r rest = 1 := by
              rw [countTimeouts_cons_timeout, if_neg hr] at ht
              omega
            unfold lookupRun
            rw [hstep]
            simp [ih s hp ht']

/-- C1: for a lookup request r registered as pending (as
ScheduleLookupTimeout leaves it after a Lookup miss), any sequence of
incoming Responses and timeout firings in which the scheduled timeout
for r fires exactly once produces exactly one callback — either the
success or the failure callback, never both; moreover a late Response
arriving when r is no longer pending is silently discarded, changing
nothing and firing nothing. -/
theorem lookup_exactly_one_callback (s : NodeState) (r : Nat) (evs : List LookupEvent)
    (hp : s.m_pendingLookups = {r}) (ht : countTimeouts r evs = 1) :
    countCallbacks (lookupRun s evs).2 = 1 ∧
      ∀ (s' : NodeState) (item : DataItem), r ∉ s'.m_pendingLookups →
        HandleResponse s' r item = (s', []) := by
  refine ⟨lookupRun_count_one r evs s hp ht, fun s' item h' => ?_⟩
  unfold HandleResponse
  rw [if_neg h']

/-- A node with one pending lookup request (id 9 for data id 42). -/
def pendingNode : NodeState :=
  { baseNode with m_pendingLookups := {9}, m_lookupMapping := [(9, 42)] }

/-- Witness for C1: a response followed by the timeout firing yields
exactly one callback. -/
theorem lookup_exactly_one_callback_witness :
    countCallbacks
        (lookupRun pendingNode
          [LookupEvent.response 9 item42, LookupEvent.timeout 9]).2 = 1 ∧
      ∀ (s' : NodeState) (item : DataItem), 9 ∉ s'.m_pendingLookups →
        HandleResponse s' 9 item = (s', []) :=
  lookup_exactly_one_callback pendingNode 9
    [LookupEvent.response 9 item42, LookupEvent.timeout 9] rfl (by decide)

/-!  C6: monotonicity of `m_min_election_time`. -/

theorem electionStep_min_bound (cfg : Config) (e : ElectionEvent) (t : Nat)
    (s : NodeState) (h : s.m_min_election_time ≤ t + cfg.electionCooldown) :
    s.m_min_election_time ≤ (electionStep cfg s t e).m_min_election_time ∧
      (electionStep cfg s t e).m_min_election_time ≤ t + cfg.electionCooldown := by
  cases e with
  | startApp =>
      unfold electionStep StartApplication
      by_cases hs : s.m_state = State.RUNNING
      · rw [if_pos hs]
        exact ⟨Nat.le_refl _, h⟩
      · rw [if_neg hs]
        simp [SchedulePing, ScheduleElectionWatchdog, RunElection,
          CalculateElectionFitness, GenerateMessageID, h]
  | electionRequest =>
      unfold electionStep HandleElectionRequest
      by_cases hg : t < s.m_min_election_time
      · rw [if_pos hg]
        exact ⟨Nat.le_refl _, h⟩
      · rw [if_neg hg]
        simp only [RunElection, CalculateElectionFitness]
        exact ⟨by omega, Nat.le_refl _⟩
  | triggerElection =>
      unfold electionStep TriggerElection
      by_cases hg : t < s.m_min_election_time
      · rw [if_pos hg]
        exact ⟨Nat.le_refl _, h⟩
      · rw [if_neg hg]
        simp only [RunElection, CalculateElectionFitness, GenerateMessageID]
        exact ⟨by omega, Nat.le_refl _⟩

/-- C6: `m_min_election_time` is monotonically non-decreasing: starting
from any state whose value is consistent with the current time (as the
initial value 0 is), every sequence of election entry points
(StartApplication, Election-request handling, TriggerElection) at
non-decreasing simulator times leaves it no smaller — each assignment
sets it to now + election_cooldown and the request/watchdog paths are
guarded by now ≥ min_election_time. -/
theorem min_election_time_monotone (cfg : Config) (s : NodeState) (t0 : Nat)
    (evs : List (Nat × ElectionEvent))
    (hinv : s.m_min_election_time ≤ t0 + cfg.electionCooldown)
    (hchain : List.Chain' (· ≤ ·) (t0 :: evs.map Prod.fst)) :
    s.m_min_election_time ≤ (electionRun cfg s evs).m_min_election_time := by
  induction evs generalizing s t0 with
  | nil => exact Nat.le_refl _
  | cons te rest ih =>
      obtain ⟨t, e⟩ := te
      have h01 : t0 ≤ t := (List.chain'_cons.mp hchain).1
      have hchain' : List.Chain' (· ≤ ·) (t :: rest.map Prod.fst) :=
        (List.chain'_cons.mp hchain).2
      have hb := electionStep_min_bound cfg e t s (by omega)
      exact le_trans hb.1 (ih (electionStep cfg s t e) t hb.2 hchain')

/-- Witness for C6: two guarded election entries at times 0 and 3. -/
theorem min_election_time_monotone_witness :
    baseNode.m_min_election_time ≤
      (electionRun defaultConfig baseNode
        [(0, ElectionEvent.electionRequest), (3, ElectionEvent.triggerElection)]).m_min_election_time :=
  min_election_time_monotone defaultConfig baseNode 0
    [(0, ElectionEvent.electionRequest), (3, ElectionEvent.triggerElection)]
    (by decide) (by simp)

end Rhpman
